import Mathlib

/-!
# PeerWire signaling core — shallow embedding

A shallow embedding of the signaling logic of `assets/js/app.js` (class
`PeerWire`): the MQTT message boundary, the signal dispatch, role
arbitration, offer/answer handling, ICE-candidate handling, and the
connection-state callback.  The browser's `RTCPeerConnection` (the Media
Transport) is external to the repository and is modelled as a record of the
fields the code reads and writes, with `createOffer`/`createAnswer`
producing deterministic opaque description blobs.  Publishing is modelled
by returning the list of envelopes passed to `sendSignal`, in call order.
-/

/-- A parsed signaling message, as produced by `sendSignal` and consumed by
`handleSignal`: `{ sender, type, data }` with `data` kept as an opaque
JSON-text blob. -/
structure SignalEnvelope where
  sender : String
  type : String
  data : String
deriving DecidableEq, Repr

/-- The state of the browser `RTCPeerConnection` that the code observes and
mutates: local/remote descriptions, the remote candidates added via
`addIceCandidate` (in call order), and `connectionState`. -/
structure PeerConn where
  localDesc : Option String := none
  remoteDesc : Option String := none
  candidates : List String := []
  connectionState : String := "new"
deriving DecidableEq, Repr

/-- The signaling-relevant state of one `PeerWire` instance: `clientId`,
`isInitiator`, the optional peer connection `pc`, the optional data channel
(`createDataChannel('chat')` when initiator), and the two UI status fields
written by `updateStatus`. -/
structure PeerWire where
  clientId : String
  isInitiator : Bool := false
  pc : Option PeerConn := none
  dataChannel : Option String := none
  statusIndicator : String := ""
  statusText : String := ""
deriving DecidableEq, Repr

/-- A fresh `PeerWire` instance right after the constructor: no peer
connection, `isInitiator = false`. -/
def mkPeerWire (clientId : String) : PeerWire :=
  { clientId := clientId }

/-- `updateStatus(type, text)` — writes the two UI status fields. -/
def updateStatus (s : PeerWire) (ty text : String) : PeerWire :=
  { s with statusIndicator := ty, statusText := text }

/-- `sendSignal(type, data)` — builds the published envelope: the `sender`
field is always `this.clientId`. -/
def sendSignal (s : PeerWire) (ty data : String) : SignalEnvelope :=
  { sender := s.clientId, type := ty, data := data }

/-- The `type` strings of the role-arbitration outcome in
`handleSignal`'s `presence` case. -/
inductive Role where
  | INITIATOR
  | RESPONDER
deriving DecidableEq, Repr

/-- Lexicographic comparison of character sequences, as JavaScript's
abstract relational comparison on strings (code-unit by code-unit; a
strict prefix is smaller). -/
def charListLt : List Char → List Char → Bool
  | _, [] => false
  | [], _ :: _ => true
  | a :: as, b :: bs =>
    if a < b then true
    else if b < a then false
    else charListLt as bs

/-- JavaScript `a < b` on strings: lexicographic over the characters. -/
def stringLt (a b : String) : Bool :=
  charListLt a.data b.data

/-- The role-arbitration rule inlined in `handleSignal`'s `presence` case:
`this.clientId > sender` means initiator, otherwise responder
(lexicographic string comparison, as JavaScript `>` on strings). -/
def decideRole (localId remoteId : String) : Role :=
  if stringLt remoteId localId then Role.INITIATOR else Role.RESPONDER

/-- Model of the external `RTCPeerConnection.createOffer`: a deterministic
opaque description blob. -/
def createOffer (clientId : String) : String :=
  "sdp_offer_" ++ clientId

/-- Model of the external `RTCPeerConnection.createAnswer`: a deterministic
opaque description blob. -/
def createAnswer (clientId : String) : String :=
  "sdp_answer_" ++ clientId

/-- `this.pc.setLocalDescription(d)`.  With `pc = null` the JavaScript
would reject with a `TypeError`; that path is unreachable in the flows the
code runs (every caller has just called `createPeerConnection`). -/
def setLocalDescription (s : PeerWire) (d : String) : PeerWire :=
  match s.pc with
  | some p => { s with pc := some { p with localDesc := some d } }
  | none => s

/-- `this.pc.setRemoteDescription(d)` (same `pc = null` caveat as
`setLocalDescription`). -/
def setRemoteDescription (s : PeerWire) (d : String) : PeerWire :=
  match s.pc with
  | some p => { s with pc := some { p with remoteDesc := some d } }
  | none => s

/-- `pc.addIceCandidate(c)` — the candidate is applied immediately,
appended to the connection's candidate list. -/
def addIceCandidate (p : PeerConn) (c : String) : PeerConn :=
  { p with candidates := p.candidates ++ [c] }

/-- `createPeerConnection()` — `if (this.pc) return;` then builds a new
`RTCPeerConnection`; the initiator additionally creates the
`'chat'` data channel. -/
def createPeerConnection (s : PeerWire) : PeerWire :=
  match s.pc with
  | some _ => s
  | none =>
    let s1 : PeerWire := { s with pc := some {} }
    if s1.isInitiator then { s1 with dataChannel := some "chat" } else s1

/-- `startCall()` — `createPeerConnection`, create the offer, set it as the
local description, publish it, and set the status to `Calling...`. -/
def startCall (s : PeerWire) : PeerWire × List SignalEnvelope :=
  let s1 := createPeerConnection s
  let offer := createOffer s1.clientId
  let s2 := setLocalDescription s1 offer
  let s3 := updateStatus s2 "connecting" "Calling..."
  (s3, [sendSignal s3 "offer" offer])

/-- `handleOffer(offer)` — `createPeerConnection`, apply the remote offer,
create and set the answer, publish the answer. -/
def handleOffer (s : PeerWire) (offer : String) : PeerWire × List SignalEnvelope :=
  let s1 := createPeerConnection s
  let s2 := setRemoteDescription s1 offer
  let answer := createAnswer s2.clientId
  let s3 := setLocalDescription s2 answer
  (s3, [sendSignal s3 "answer" answer])

/-- `handleAnswer(answer)` — apply the remote answer. -/
def handleAnswer (s : PeerWire) (answer : String) : PeerWire :=
  setRemoteDescription s answer

/-- `handleSignal(signal)` — the dispatch switch on `type`.  The `presence`
case runs role arbitration and, on the initiator side, `startCall`; a
`candidate` is applied only `if (this.pc)`, otherwise dropped; an unknown
`type` falls through the switch (no default case). -/
def handleSignal (s : PeerWire) (env : SignalEnvelope) : PeerWire × List SignalEnvelope :=
  match env.type with
  | "presence" =>
    if stringLt env.sender s.clientId then
      startCall { s with isInitiator := true }
    else
      ({ s with isInitiator := false }, [])
  | "offer" => handleOffer s env.data
  | "answer" => (handleAnswer s env.data, [])
  | "candidate" =>
    (match s.pc with
     | some p => { s with pc := some (addIceCandidate p env.data) }
     | none => s, [])
  | _ => (s, [])

/-- Reads an expected literal character sequence off the front of the
input, returning the rest. -/
def readLit : List Char → List Char → Option (List Char)
  | [], cs => some cs
  | _ :: _, [] => none
  | l :: ls, c :: cs => if c = l then readLit ls cs else none

/-- Reads characters up to the next `"` quote, returning the content and
the rest after the quote. -/
def readQuoted : List Char → Option (List Char × List Char)
  | [] => none
  | c :: cs =>
    if c = '"' then some ([], cs)
    else
      match readQuoted cs with
      | some (v, rest) => some (c :: v, rest)
      | none => none

/-- `JSON.parse` restricted to the envelope shape that `sendSignal` emits:
an object with string fields `sender` and `type` and an opaque `data`
value.  Anything else fails, as `JSON.parse` fails on malformed input. -/
def parseEnvelopeChars (cs : List Char) : Option SignalEnvelope :=
  match readLit ("\x7b\"sender\":\"".data) cs with
  | none => none
  | some r1 =>
    match readQuoted r1 with
    | none => none
    | some (sender, r2) =>
      match readLit (",\"type\":\"".data) r2 with
      | none => none
      | some r3 =>
        match readQuoted r3 with
        | none => none
        | some (ty, r4) =>
          match readLit (",\"data\":".data) r4 with
          | none => none
          | some r5 =>
            if r5.getLast? = some '\x7d' then
              some { sender := ⟨sender⟩, type := ⟨ty⟩, data := ⟨r5.dropLast⟩ }
            else none

/-- `JSON.parse(message.toString())` at the message boundary: a malformed
body is the thrown `SyntaxError`, modelled as `Except.error`. -/
def parseEnvelope (raw : String) : Except String SignalEnvelope :=
  match parseEnvelopeChars raw.data with
  | some env => Except.ok env
  | none => Except.error "SyntaxError: Unexpected token in JSON"

/-- `JSON.stringify({ sender, type, data })` as built by `sendSignal`. -/
def encodeEnvelope (e : SignalEnvelope) : String :=
  "\x7b\"sender\":\"" ++ e.sender ++ "\",\"type\":\"" ++ e.type
    ++ "\",\"data\":" ++ e.data ++ "\x7d"

/-- The MQTT `message` callback in `setupMQTT`: parse the body (an
exception from `JSON.parse` propagates out of the callback — there is no
`try`/`catch`), drop self-echo (`payload.sender === this.clientId`), else
dispatch to `handleSignal`. -/
def onMessage (s : PeerWire) (raw : String) :
    Except String (PeerWire × List SignalEnvelope) :=
  match parseEnvelope raw with
  | Except.error e => Except.error e
  | Except.ok env =>
    if env.sender = s.clientId then Except.ok (s, [])
    else Except.ok (handleSignal s env)

/-- The MQTT `connect` callback in `setupMQTT`: set the waiting status and
broadcast `presence` (empty object payload). -/
def onMqttConnect (s : PeerWire) : PeerWire × List SignalEnvelope :=
  (updateStatus s "connecting" "Waiting for peer...",
   [sendSignal s "presence" "\x7b\x7d"])

/-- `pc.onicecandidate` — publish each discovered local candidate
(`if (event.candidate)`); a null candidate publishes nothing. -/
def onLocalIceCandidate (s : PeerWire) (cand : Option String) : List SignalEnvelope :=
  match cand with
  | some c => [sendSignal s "candidate" c]
  | none => []

/-- `pc.onconnectionstatechange` — the connection state has changed to
`st`; `connected` reports `Connected`, `disconnected`/`failed` report
`Peer disconnected`. -/
def onConnectionStateChange (s : PeerWire) (st : String) : PeerWire :=
  match s.pc with
  | none => s
  | some p =>
    let s1 : PeerWire := { s with pc := some { p with connectionState := st } }
    if st = "connected" then updateStatus s1 "online" "Connected"
    else if st = "disconnected" ∨ st = "failed" then
      updateStatus s1 "disconnected" "Peer disconnected"
    else s1

/-! ### The two-party happy-path scenario (agent A is `"zzz"`, agent B is
`"aaa"`): each step is the state/publication pair after the next delivered
event. -/

/-- Agent A after connecting and processing B's PRESENCE. -/
def scenarioA1 : PeerWire × List SignalEnvelope :=
  handleSignal (onMqttConnect (mkPeerWire "zzz")).1 ⟨"aaa", "presence", "\x7b\x7d"⟩

/-- Agent B after connecting and processing A's PRESENCE. -/
def scenarioB1 : PeerWire × List SignalEnvelope :=
  handleSignal (onMqttConnect (mkPeerWire "aaa")).1 ⟨"zzz", "presence", "\x7b\x7d"⟩

/-- Agent B after additionally processing A's OFFER. -/
def scenarioB2 : PeerWire × List SignalEnvelope :=
  handleSignal scenarioB1.1 ⟨"zzz", "offer", "sdp_offer_zzz"⟩

/-- Agent A after additionally processing B's ANSWER. -/
def scenarioA2 : PeerWire × List SignalEnvelope :=
  handleSignal scenarioA1.1 ⟨"aaa", "answer", "sdp_answer_aaa"⟩

/-- Agent A once its transport reports `connected`. -/
def scenarioAFinal : PeerWire :=
  onConnectionStateChange scenarioA2.1 "connected"

/-- Agent B once its transport reports `connected`. -/
def scenarioBFinal : PeerWire :=
  onConnectionStateChange scenarioB2.1 "connected"

/-! ## Order facts about the arbitration comparison -/

theorem charListLt_nil_right (as : List Char) : charListLt as [] = false := by
  cases as <;> rfl

theorem charListLt_asymmetric :
    ∀ as bs : List Char, charListLt as bs = true → charListLt bs as = false := by
  intro as bs h
  induction as generalizing bs with
  | nil =>
    cases bs with
    | nil => simp [charListLt] at h
    | cons b bs => simp [charListLt]
  | cons a as ih =>
    cases bs with
    | nil => simp [charListLt] at h
    | cons b bs =>
      simp only [charListLt] at h ⊢
      rcases lt_trichotomy a b with hab | hab | hab
      · rw [if_neg (asymm hab), if_pos hab]
      · subst hab
        rw [if_neg (lt_irrefl a), if_neg (lt_irrefl a)] at h
        rw [if_neg (lt_irrefl a), if_neg (lt_irrefl a)]
        exact ih bs h
      · rw [if_neg (asymm hab), if_pos hab] at h
        exact absurd h (by simp)

theorem charListLt_connex :
    ∀ as bs : List Char, as ≠ bs →
      charListLt as bs = true ∨ charListLt bs as = true := by
  intro as bs h
  induction as generalizing bs with
  | nil =>
    cases bs with
    | nil => exact absurd rfl h
    | cons b bs => exact Or.inl rfl
  | cons a as ih =>
    cases bs with
    | nil => exact Or.inr rfl
    | cons b bs =>
      rcases lt_trichotomy a b with hab | hab | hab
      · left; simp [charListLt, hab]
      · subst hab
        have hne : as ≠ bs := fun hh => h (by rw [hh])
        rcases ih bs hne with h1 | h1
        · left; simp [charListLt, h1]
        · right; simp [charListLt, h1]
      · right; simp [charListLt, hab]

theorem string_data_ne {a b : String} (h : a ≠ b) : a.data ≠ b.data := by
  intro hd
  apply h
  cases a with
  | mk as =>
    cases b with
    | mk bs => exact congrArg String.mk hd

/-- `startCall` never changes `isInitiator`. -/
theorem startCall_isInitiator (s : PeerWire) :
    (startCall s).1.isInitiator = s.isInitiator := by
  cases s with
  | mk cid ini pc dc si st => cases pc <;> cases ini <;> rfl

/-- The `presence` case of `handleSignal` assigns exactly the role computed
by `decideRole` (shared bridging lemma between the dispatch code and the
arbitration rule). -/
theorem handleSignal_presence_role (s : PeerWire) (env : SignalEnvelope)
    (ht : env.type = "presence") :
    ((handleSignal s env).1.isInitiator = true ↔
      decideRole s.clientId env.sender = Role.INITIATOR) := by
  unfold handleSignal decideRole
  rw [ht]
  by_cases hc : stringLt env.sender s.clientId = true
  · simp [hc, startCall_isInitiator]
  · simp [hc]

/-- C1: Role arbitration is deterministic and antisymmetric — for every
pair of distinct participant id strings `A` and `B`, under lexicographic
string comparison exactly one of `decideRole A B` and `decideRole B A`
yields `INITIATOR`, and the one that does not yields `RESPONDER`, so both
sides can never independently conclude `INITIATOR` for the same pair. -/
theorem role_arbitration_deterministic_antisymmetric (A B : String) (h : A ≠ B) :
    ((decideRole A B = Role.INITIATOR ∧ decideRole B A = Role.RESPONDER) ∨
      (decideRole A B = Role.RESPONDER ∧ decideRole B A = Role.INITIATOR)) ∧
    ¬(decideRole A B = Role.INITIATOR ∧ decideRole B A = Role.INITIATOR) := by
  have hd : A.data ≠ B.data := string_data_ne h
  rcases charListLt_connex A.data B.data hd with h1 | h1
  · have h2 := charListLt_asymmetric _ _ h1
    unfold decideRole stringLt
    simp [h1, h2]
  · have h2 := charListLt_asymmetric _ _ h1
    unfold decideRole stringLt
    simp [h1, h2]

/-- Witness for C1 at the concrete pair `"zzz"`, `"aaa"`. -/
theorem role_arbitration_deterministic_antisymmetric_witness :
    ("zzz" : String) ≠ "aaa" ∧
    (((decideRole "zzz" "aaa" = Role.INITIATOR ∧ decideRole "aaa" "zzz" = Role.RESPONDER) ∨
      (decideRole "zzz" "aaa" = Role.RESPONDER ∧ decideRole "aaa" "zzz" = Role.INITIATOR)) ∧
    ¬(decideRole "zzz" "aaa" = Role.INITIATOR ∧ decideRole "aaa" "zzz" = Role.INITIATOR)) :=
  ⟨by decide, role_arbitration_deterministic_antisymmetric "zzz" "aaa" (by decide)⟩

/-- C4: Self-echo filtering — an envelope whose `sender` equals the
receiving agent's own `clientId` is discarded at the message boundary:
`onMessage` returns the state unchanged with no publications, never
dispatching to `handleSignal`. -/
theorem self_echo_filtering (s : PeerWire) (raw : String) (env : SignalEnvelope)
    (hp : parseEnvelope raw = Except.ok env) (hs : env.sender = s.clientId) :
    onMessage s raw = Except.ok (s, []) := by
  unfold onMessage
  rw [hp]
  simp [hs]

/-- Witness for C4: a concrete agent receiving its own encoded presence. -/
theorem self_echo_filtering_witness :
    onMessage (mkPeerWire "me") (encodeEnvelope ⟨"me", "presence", "\x7b\x7d"⟩) =
      Except.ok (mkPeerWire "me", []) :=
  self_echo_filtering (mkPeerWire "me") (encodeEnvelope ⟨"me", "presence", "\x7b\x7d"⟩)
    ⟨"me", "presence", "\x7b\x7d"⟩ (by rfl) (by rfl)

theorem charListLt_irrefl : ∀ as : List Char, charListLt as as = false
  | [] => rfl
  | a :: as => by simp [charListLt, charListLt_irrefl as]

/-- `startCall` on a state that already has a peer connection: the existing
connection is kept, its local description is overwritten with the fresh
offer, and the offer is published. -/
theorem startCall_existing_pc (s : PeerWire) (p : PeerConn) (hpc : s.pc = some p) :
    startCall s =
      ({ s with pc := some { p with localDesc := some (createOffer s.clientId) },
                statusIndicator := "connecting", statusText := "Calling..." },
       [{ sender := s.clientId, type := "offer", data := createOffer s.clientId }]) := by
  cases s with
  | mk cid ini pc dc si st =>
    cases hpc
    rfl

/-- C2 counterexample: a CANDIDATE envelope delivered to a responder before
any remote description exists is dropped on the floor — after the OFFER is
later applied, the connection's candidate list is still empty, so the
candidate was lost, not buffered. -/
theorem candidate_buffering_counterexample :
    (handleSignal (mkPeerWire "aaa") ⟨"zzz", "candidate", "cand1"⟩).1 = mkPeerWire "aaa" ∧
    (handleSignal (mkPeerWire "aaa") ⟨"zzz", "candidate", "cand1"⟩).2 = [] ∧
    ((handleSignal (handleSignal (mkPeerWire "aaa") ⟨"zzz", "candidate", "cand1"⟩).1
        ⟨"zzz", "offer", "sdpA"⟩).1.pc.map PeerConn.remoteDesc) = some (some "sdpA") ∧
    ((handleSignal (handleSignal (mkPeerWire "aaa") ⟨"zzz", "candidate", "cand1"⟩).1
        ⟨"zzz", "offer", "sdpA"⟩).1.pc.map PeerConn.candidates) = some [] := by
  decide

/-- C2 amended: there is no `pendingCandidates` buffer — a CANDIDATE
envelope delivered while `pc` is null is silently discarded (state
unchanged, nothing published), and a CANDIDATE delivered while a peer
connection exists is applied immediately, appended in arrival order,
regardless of whether a remote description has been applied. -/
theorem candidate_no_buffering (s : PeerWire) (env : SignalEnvelope)
    (ht : env.type = "candidate") :
    (s.pc = none → handleSignal s env = (s, [])) ∧
    (∀ p : PeerConn, s.pc = some p →
      handleSignal s env =
        ({ s with pc := some { p with candidates := p.candidates ++ [env.data] } }, [])) := by
  unfold handleSignal
  rw [ht]
  constructor
  · intro hpc
    rw [hpc]
    rfl
  · intro p hpc
    rw [hpc]
    rfl

/-- Witness for C2's amended claim at a fresh responder and at a state with
a live connection. -/
theorem candidate_no_buffering_witness :
    handleSignal (mkPeerWire "aaa") ⟨"zzz", "candidate", "c1"⟩ = (mkPeerWire "aaa", []) ∧
    handleSignal { clientId := "aaa", pc := some { candidates := ["c0"] } }
        ⟨"zzz", "candidate", "c1"⟩ =
      ({ clientId := "aaa", pc := some { candidates := ["c0", "c1"] } }, []) :=
  ⟨(candidate_no_buffering (mkPeerWire "aaa") ⟨"zzz", "candidate", "c1"⟩ rfl).1 rfl,
   (candidate_no_buffering { clientId := "aaa", pc := some { candidates := ["c0"] } }
      ⟨"zzz", "candidate", "c1"⟩ rfl).2 { candidates := ["c0"] } rfl⟩

/-- C3 counterexample: after an agent with id `"zzz"` has already processed
a PRESENCE from `"aaa"` (deciding INITIATOR and publishing an OFFER),
delivering the same PRESENCE envelope a second time publishes an
additional OFFER — it is not a no-op. -/
theorem duplicate_presence_counterexample :
    (handleSignal (handleSignal (mkPeerWire "zzz") ⟨"aaa", "presence", "\x7b\x7d"⟩).1
        ⟨"aaa", "presence", "\x7b\x7d"⟩).2 =
      [{ sender := "zzz", type := "offer", data := "sdp_offer_zzz" }] := by
  decide

/-- C3 amended: a duplicate PRESENCE from a lower id re-runs arbitration
and re-invokes `startCall`: the existing peer connection is not recreated
(`createPeerConnection` returns early), but a fresh local description is
set on it and one more OFFER is published on every delivery. -/
theorem duplicate_presence_retriggers_offer (s : PeerWire) (p : PeerConn)
    (hpc : s.pc = some p) (env : SignalEnvelope)
    (ht : env.type = "presence") (hlt : stringLt env.sender s.clientId = true) :
    handleSignal s env =
      ({ s with isInitiator := true,
                pc := some { p with localDesc := some (createOffer s.clientId) },
                statusIndicator := "connecting", statusText := "Calling..." },
       [{ sender := s.clientId, type := "offer", data := createOffer s.clientId }]) := by
  have h1 := startCall_existing_pc { s with isInitiator := true } p (by simpa using hpc)
  unfold handleSignal
  rw [ht]
  simp only [hlt, if_true]
  rw [h1]

/-- Witness for C3's amended claim: the post-PRESENCE initiator state with
id `"zzz"` receiving the same PRESENCE again. -/
theorem duplicate_presence_retriggers_offer_witness :
    handleSignal
        { clientId := "zzz", isInitiator := true,
          pc := some { localDesc := some "sdp_offer_zzz" },
          dataChannel := some "chat",
          statusIndicator := "connecting", statusText := "Calling..." }
        ⟨"aaa", "presence", "\x7b\x7d"⟩ =
      ({ clientId := "zzz", isInitiator := true,
         pc := some { localDesc := some (createOffer "zzz") },
         dataChannel := some "chat",
         statusIndicator := "connecting", statusText := "Calling..." },
       [{ sender := "zzz", type := "offer", data := createOffer "zzz" }]) :=
  duplicate_presence_retriggers_offer
    { clientId := "zzz", isInitiator := true,
      pc := some { localDesc := some "sdp_offer_zzz" },
      dataChannel := some "chat",
      statusIndicator := "connecting", statusText := "Calling..." }
    { localDesc := some "sdp_offer_zzz" } rfl
    ⟨"aaa", "presence", "\x7b\x7d"⟩ rfl (by decide)

/-- C5: the end-to-end two-party scenario.  Agent A (id `"zzz"`) and agent
B (id `"aaa"`) both publish PRESENCE on connect; A processes B's PRESENCE,
decides INITIATOR and publishes an OFFER; B processes A's PRESENCE and
decides RESPONDER; B applies the OFFER and publishes an ANSWER; A applies
the ANSWER; once each side's transport reports `connected`, both report
the connected status, with final roles A = INITIATOR, B = RESPONDER. -/
theorem end_to_end_two_party_scenario :
    (onMqttConnect (mkPeerWire "zzz")).2 =
      [{ sender := "zzz", type := "presence", data := "\x7b\x7d" }] ∧
    (onMqttConnect (mkPeerWire "aaa")).2 =
      [{ sender := "aaa", type := "presence", data := "\x7b\x7d" }] ∧
    scenarioA1.1.isInitiator = true ∧
    scenarioA1.2 = [{ sender := "zzz", type := "offer", data := "sdp_offer_zzz" }] ∧
    scenarioB1.1.isInitiator = false ∧
    scenarioB1.2 = [] ∧
    (scenarioB2.1.pc.map PeerConn.remoteDesc) = some (some "sdp_offer_zzz") ∧
    scenarioB2.2 = [{ sender := "aaa", type := "answer", data := "sdp_answer_aaa" }] ∧
    (scenarioA2.1.pc.map PeerConn.remoteDesc) = some (some "sdp_answer_aaa") ∧
    scenarioA2.2 = [] ∧
    scenarioAFinal.statusIndicator = "online" ∧ scenarioAFinal.statusText = "Connected" ∧
    scenarioBFinal.statusIndicator = "online" ∧ scenarioBFinal.statusText = "Connected" ∧
    scenarioAFinal.isInitiator = true ∧ scenarioBFinal.isInitiator = false := by
  decide

/-- C6 counterexample: a PRESENCE whose sender equals the local id is
silently dropped by the self-echo filter — `onMessage` returns the state
unchanged with no error raised — and the arbitration rule on equal ids
silently yields RESPONDER; no IdentityCollision failure exists anywhere. -/
theorem identity_collision_counterexample :
    onMessage (mkPeerWire "dup") (encodeEnvelope ⟨"dup", "presence", "\x7b\x7d"⟩) =
      Except.ok (mkPeerWire "dup", []) ∧
    decideRole "dup" "dup" = Role.RESPONDER := by
  exact ⟨rfl, rfl⟩

/-- C6 amended: on an id collision the implementation does not fail fast —
an envelope whose sender equals the local id (the only observable form of
a collision) is indistinguishable from self-echo and silently discarded at
the message boundary, and the arbitration rule itself silently picks
RESPONDER for equal ids. -/
theorem identity_collision_silent (s : PeerWire) (raw : String) (env : SignalEnvelope)
    (hp : parseEnvelope raw = Except.ok env) (hs : env.sender = s.clientId)
    (ht : env.type = "presence") :
    onMessage s raw = Except.ok (s, []) ∧
    decideRole s.clientId s.clientId = Role.RESPONDER := by
  constructor
  · unfold onMessage
    rw [hp]
    simp [hs]
  · unfold decideRole stringLt
    rw [charListLt_irrefl]
    rfl

/-- Witness for C6's amended claim at a concrete agent id. -/
theorem identity_collision_silent_witness :
    onMessage (mkPeerWire "user_a") (encodeEnvelope ⟨"user_a", "presence", "\x7b\x7d"⟩) =
      Except.ok (mkPeerWire "user_a", []) ∧
    decideRole "user_a" "user_a" = Role.RESPONDER :=
  identity_collision_silent (mkPeerWire "user_a")
    (encodeEnvelope ⟨"user_a", "presence", "\x7b\x7d"⟩)
    ⟨"user_a", "presence", "\x7b\x7d"⟩ (by rfl) (by rfl) (by rfl)

/-- C7 counterexample: a malformed message body makes the message callback
propagate the `JSON.parse` error — it is not swallowed at the dispatch
boundary, so the claim that the agent does not throw on malformed JSON is
false. -/
theorem malformed_json_counterexample :
    onMessage (mkPeerWire "me") "not json" =
      Except.error "SyntaxError: Unexpected token in JSON" := by
  rfl

/-- C7 amended: a malformed body makes the message callback propagate the
`JSON.parse` exception unchanged (there is no try/catch and no log), while
a well-formed envelope with an unknown `type` falls through the dispatch
switch silently — state unchanged, nothing published, and no log entry
either. -/
theorem dispatch_error_amended (s : PeerWire) :
    (∀ raw e, parseEnvelope raw = Except.error e → onMessage s raw = Except.error e) ∧
    (∀ env : SignalEnvelope,
      env.type ≠ "presence" → env.type ≠ "offer" → env.type ≠ "answer" →
      env.type ≠ "candidate" → handleSignal s env = (s, [])) := by
  constructor
  · intro raw e hp
    unfold onMessage
    rw [hp]
  · intro env h1 h2 h3 h4
    unfold handleSignal
    split <;> simp_all

/-- Witness for C7's amended claim: a malformed body and an unknown type. -/
theorem dispatch_error_amended_witness :
    onMessage (mkPeerWire "w") "oops" =
      Except.error "SyntaxError: Unexpected token in JSON" ∧
    handleSignal (mkPeerWire "w") ⟨"x", "bogus", "d"⟩ = (mkPeerWire "w", []) :=
  ⟨(dispatch_error_amended (mkPeerWire "w")).1 "oops"
      "SyntaxError: Unexpected token in JSON" (by rfl),
   (dispatch_error_amended (mkPeerWire "w")).2 ⟨"x", "bogus", "d"⟩
      (by decide) (by decide) (by decide) (by decide)⟩

/-- C8 counterexample: an agent with id `"zzz"` that decided INITIATOR and
already sent its OFFER, on receiving an OFFER instead of an ANSWER, does
not discard it: it publishes an ANSWER and overwrites its negotiation
state (remote and local descriptions), so the state is not left
unchanged. -/
theorem glare_counterexample :
    (handleSignal (handleSignal (mkPeerWire "zzz") ⟨"aaa", "presence", "\x7b\x7d"⟩).1
        ⟨"aaa", "offer", "sdp_offer_aaa"⟩).2 =
      [{ sender := "zzz", type := "answer", data := "sdp_answer_zzz" }] ∧
    ((handleSignal (handleSignal (mkPeerWire "zzz") ⟨"aaa", "presence", "\x7b\x7d"⟩).1
        ⟨"aaa", "offer", "sdp_offer_aaa"⟩).1.pc.map PeerConn.remoteDesc) =
      some (some "sdp_offer_aaa") ∧
    (handleSignal (handleSignal (mkPeerWire "zzz") ⟨"aaa", "presence", "\x7b\x7d"⟩).1
        ⟨"aaa", "offer", "sdp_offer_aaa"⟩).1 ≠
      (handleSignal (mkPeerWire "zzz") ⟨"aaa", "presence", "\x7b\x7d"⟩).1 := by
  decide

/-- C8 amended: an agent holding a live peer connection (in particular an
INITIATOR that has sent its OFFER) that receives an OFFER does not crash
and does not tear the session down — but it does not discard the message
either: `handleOffer` runs on the existing connection, the incoming offer
overwrites the remote description, a fresh answer overwrites the local
description, and an ANSWER is published. -/
theorem glare_processes_offer (s : PeerWire) (p : PeerConn) (hpc : s.pc = some p)
    (env : SignalEnvelope) (ht : env.type = "offer") :
    handleSignal s env =
      ({ s with pc := some { p with localDesc := some (createAnswer s.clientId),
                                    remoteDesc := some env.data } },
       [{ sender := s.clientId, type := "answer", data := createAnswer s.clientId }]) := by
  cases s with
  | mk cid ini pc dc si st =>
    cases hpc
    unfold handleSignal
    rw [ht]
    rfl

/-- Witness for C8's amended claim at the concrete post-OFFER initiator. -/
theorem glare_processes_offer_witness :
    handleSignal
        { clientId := "zzz", isInitiator := true,
          pc := some { localDesc := some "sdp_offer_zzz" },
          dataChannel := some "chat",
          statusIndicator := "connecting", statusText := "Calling..." }
        ⟨"aaa", "offer", "sdp_offer_aaa"⟩ =
      ({ clientId := "zzz", isInitiator := true,
         pc := some { localDesc := some (createAnswer "zzz"),
                      remoteDesc := some "sdp_offer_aaa" },
         dataChannel := some "chat",
         statusIndicator := "connecting", statusText := "Calling..." },
       [{ sender := "zzz", type := "answer", data := createAnswer "zzz" }]) :=
  glare_processes_offer
    { clientId := "zzz", isInitiator := true,
      pc := some { localDesc := some "sdp_offer_zzz" },
      dataChannel := some "chat",
      statusIndicator := "connecting", statusText := "Calling..." }
    { localDesc := some "sdp_offer_zzz" } rfl
    ⟨"aaa", "offer", "sdp_offer_aaa"⟩ rfl

/-- C9: `createPeerConnection` is idempotent — whenever a peer connection
already exists, the call returns immediately and the entire agent state
(connection, data channel, handlers) is left exactly as it was; no second
connection is created. -/
theorem createPeerConnection_idempotent (s : PeerWire) (p : PeerConn)
    (h : s.pc = some p) :
    createPeerConnection s = s := by
  unfold createPeerConnection
  rw [h]

/-- Witness for C9 at a concrete state with a live connection. -/
theorem createPeerConnection_idempotent_witness :
    createPeerConnection
        { clientId := "a", pc := some { localDesc := some "x" },
          dataChannel := some "chat" } =
      { clientId := "a", pc := some { localDesc := some "x" },
        dataChannel := some "chat" } :=
  createPeerConnection_idempotent
    { clientId := "a", pc := some { localDesc := some "x" },
      dataChannel := some "chat" }
    { localDesc := some "x" } rfl

/-- `startCall` publishes exactly one OFFER envelope, stamped with the
caller's own `clientId`. -/
theorem startCall_publishes (s : PeerWire) :
    (startCall s).2 =
      [{ sender := s.clientId, type := "offer", data := createOffer s.clientId }] := by
  cases s with
  | mk cid ini pc dc si st => cases pc <;> cases ini <;> rfl

/-- `handleOffer` publishes exactly one ANSWER envelope, stamped with the
caller's own `clientId`. -/
theorem handleOffer_publishes (s : PeerWire) (d : String) :
    (handleOffer s d).2 =
      [{ sender := s.clientId, type := "answer", data := createAnswer s.clientId }] := by
  cases s with
  | mk cid ini pc dc si st => cases pc <;> cases ini <;> rfl

/-- C10: outbound sender invariant — every envelope built by `sendSignal`,
and hence every envelope published from any of the publish sites (the
dispatch handler, the connect-time PRESENCE broadcast, and the local
ICE-candidate callback), carries `sender = clientId` of the publishing
agent. -/
theorem outbound_sender_invariant (s : PeerWire) (env : SignalEnvelope)
    (ty d : String) (c : Option String) :
    (sendSignal s ty d).sender = s.clientId ∧
    (∀ e ∈ (handleSignal s env).2, e.sender = s.clientId) ∧
    (∀ e ∈ (onMqttConnect s).2, e.sender = s.clientId) ∧
    (∀ e ∈ onLocalIceCandidate s c, e.sender = s.clientId) := by
  refine ⟨rfl, ?_, ?_, ?_⟩
  · intro e he
    unfold handleSignal at he
    split at he
    · split at he
      · rw [startCall_publishes] at he
        simp at he
        subst he
        rfl
      · simp at he
    · rw [handleOffer_publishes] at he
      simp at he
      subst he
      rfl
    · simp at he
    · simp at he
    · simp at he
  · intro e he
    simp [onMqttConnect, sendSignal] at he
    subst he
    rfl
  · intro e he
    cases c with
    | some cv =>
      simp [onLocalIceCandidate, sendSignal] at he
      subst he
      rfl
    | none => simp [onLocalIceCandidate] at he

/-- Witness for C10 at a concrete agent, envelope and candidate: the
concrete OFFER published by the presence dispatch and the concrete
PRESENCE broadcast both carry the agent's own id as sender. -/
theorem outbound_sender_invariant_witness :
    (sendSignal (mkPeerWire "w10") "offer" "sdp").sender = (mkPeerWire "w10").clientId ∧
    ({ sender := "w10", type := "offer", data := "sdp_offer_w10" } : SignalEnvelope).sender
        = (mkPeerWire "w10").clientId ∧
    ({ sender := "w10", type := "presence", data := "\x7b\x7d" } : SignalEnvelope).sender
        = (mkPeerWire "w10").clientId :=
  ⟨(outbound_sender_invariant (mkPeerWire "w10") ⟨"a", "presence", "\x7b\x7d"⟩
      "offer" "sdp" (some "cand")).1,
   (outbound_sender_invariant (mkPeerWire "w10") ⟨"a", "presence", "\x7b\x7d"⟩
      "offer" "sdp" (some "cand")).2.1
      { sender := "w10", type := "offer", data := "sdp_offer_w10" } (by decide),
   (outbound_sender_invariant (mkPeerWire "w10") ⟨"a", "presence", "\x7b\x7d"⟩
      "offer" "sdp" (some "cand")).2.2.1
      { sender := "w10", type := "presence", data := "\x7b\x7d" } (by decide)⟩
